import Mathlib

/-!
Verification development for the calibration-bench simulator
(`SimulatorContext.jsx`, `Multimeter.jsx`, `Fluke117.jsx` and the device
registry).  The JavaScript source is shallowly embedded: JS numbers are
modelled as `ℚ`, JS `undefined`/`null` as `Option`/default values, and the
store reducer as a pure function on an explicit state record.  Randomness
(`Math.random()`) is modelled by explicit parameters: a `Fin 3` index where
the code draws a compliance status, and a rational `r ∈ [0,1]` where the
code draws a fluctuation offset.
-/

namespace CalSim

/-- Truthiness helper for JS `x || d` on numbers: `undefined` (`none`) and
`0` are falsy and fall back to the default. -/
def jsOrQ (x : Option ℚ) (d : ℚ) : ℚ :=
  match x with
  | some v => if v = 0 then d else v
  | none => d

/-- Truthiness helper for JS `x || d` on strings: the empty string is falsy. -/
def jsOrStr (x : String) (d : String) : String :=
  if x == "" then d else x

/-- Character-list helper: does `t` start with `pat`?  (Used to embed JS
`String.prototype.includes`.) -/
def startsWithChars : List Char → List Char → Bool
  | _, [] => true
  | [], _ :: _ => false
  | c :: cs, p :: ps => c == p && startsWithChars cs ps

/-- Character-list helper: does `t` contain `pat` as a contiguous run? -/
def containsChars : List Char → List Char → Bool
  | [], pat => pat.isEmpty
  | c :: cs, pat => startsWithChars (c :: cs) pat || containsChars cs pat

/-- Embedding of JS `s.includes(pat)` for strings. -/
def jsIncludes (s pat : String) : Bool :=
  containsChars s.toList pat.toList

/-- Device-specific state.  In the source this is an open JS object; we model
exactly the fields the simulation engine reads.  A field absent from a
device's `initialState` behaves as JS `undefined`, i.e. falsy: this is the
`false` / `none` / `0` default here, which agrees with every guarded read in
the engine. -/
structure DeviceState where
  power : Bool := false
  output : Bool := false
  rfOn : Bool := false
  mode : String := ""
  value : ℚ := 0
  unit : String := ""
  frequency : Option ℚ := none
  level : ℚ := 0
  complianceStatus : Option String := none
deriving Repr, DecidableEq

/-- Wire properties of a connection (`wireProperties` in the source; the
source names the kind field `type`). -/
structure WireProperties where
  type : String
  resistance : ℚ
deriving Repr, DecidableEq

/-- A directed wire between two components' terminals (`from`/`to` are
renamed `fromId`/`toId` because `from` is reserved in Lean). -/
structure Connection where
  fromId : Nat
  toId : Nat
  polarity : String
  wireProperties : WireProperties
deriving Repr, DecidableEq

/-- A placed device instance. -/
structure Component where
  id : Nat
  type : String
  x : ℚ := 0
  y : ℚ := 0
  state : DeviceState
deriving Repr, DecidableEq

/-- Error-simulation flags (`errorSimulation` in `initialState`). -/
structure ErrorSimulation where
  loadingError : Bool
  resolutionUncertainty : Bool
  instrumentError : Bool
deriving Repr, DecidableEq

/-- A connection alert/notification. -/
structure Alert where
  id : Nat
  kind : String
  title : String
  message : String
deriving Repr, DecidableEq

/-- The canonical store state (`initialState` shape in
`SimulatorContext.jsx`). -/
structure SimState where
  components : List Component
  connections : List Connection
  componentIdCounter : Nat
  connectionStartPoint : Option (Nat × String)
  alerts : List Alert
  alertIdCounter : Nat
  uncertaintyMode : Bool
  errorSimulation : ErrorSimulation
deriving Repr

/-- The store's initial state. -/
def initialState : SimState where
  components := []
  connections := []
  componentIdCounter := 0
  connectionStartPoint := none
  alerts := []
  alertIdCounter := 0
  uncertaintyMode := false
  errorSimulation := { loadingError := false, resolutionUncertainty := false, instrumentError := false }

/-- The three non-null compliance statuses (`COMPLIANCE_STATUSES`). -/
def COMPLIANCE_STATUSES : List String :=
  ["compliance", "non_compliance", "out_of_tolerance"]

/-- Lookup of a compliance status by the random index
`Math.floor(Math.random() * 3) ∈ {0,1,2}`. -/
def complianceStatusAt (i : Fin 3) : String :=
  COMPLIANCE_STATUSES.getD i.val ""

/-- Device registry: `(type, role)` for every registered device
(`deviceRegistry.js`; each entry's `type` and `role` come from the device's
config module). -/
def DEVICES : List (String × String) :=
  [("sma100a", "calibrator"),
   ("fpc1500", "uuc"),
   ("fluke5500a", "calibrator"),
   ("fluke5522a", "calibrator"),
   ("multimeter", "uuc"),
   ("u3606a", "uuc"),
   ("analog_multimeter", "uuc"),
   ("clamp_meter", "uuc"),
   ("lightsource", "calibrator"),
   ("oscilloscope", "uuc"),
   ("oscilloscope-calibrator", "calibrator")]

/-- Registry query `getCalibratorTypes()`. -/
def getCalibratorTypes : List String :=
  (DEVICES.filter (fun d => d.2 == "calibrator")).map (fun d => d.1)

/-- Registry query `getUUCTypes()`. -/
def getUUCTypes : List String :=
  (DEVICES.filter (fun d => d.2 == "uuc")).map (fun d => d.1)

/-- Registry query `getInitialState(type)`: the per-device
`initialState` template restricted to the modelled fields; unknown types get
`{ power: false }`. -/
def getInitialState (dtype : String) : DeviceState :=
  if dtype == "sma100a" then
    { power := true, frequency := some 6, level := 15, rfOn := false }
  else if dtype == "fpc1500" then
    { power := true }
  else if dtype == "fluke5500a" then
    { power := true, output := false, mode := "DC Voltage", value := 0, unit := "V",
      frequency := some 1000 }
  else if dtype == "fluke5522a" then
    { power := true, output := false, mode := "DC Voltage", value := 1, unit := "V",
      frequency := some 1000 }
  else if dtype == "multimeter" then
    { power := true, mode := "DC V", value := 0, unit := "V" }
  else if dtype == "u3606a" then
    { power := true, mode := "DCV", value := 0, unit := "V" }
  else if dtype == "analog_multimeter" then
    { power := true, mode := "DCV", value := 0, unit := "V" }
  else if dtype == "clamp_meter" then
    { power := true, mode := "AC_AMP", value := 0, unit := "A" }
  else if dtype == "lightsource" then
    { power := true, output := false }
  else if dtype == "oscilloscope" then
    { power := true }
  else if dtype == "oscilloscope-calibrator" then
    { power := true, output := false, frequency := some 1000 }
  else
    { power := false }

/-- Store actions (the reducer's action types).  Where the source draws from
`Math.random()`, the action carries the drawn value(s) explicitly:
`addComponent` one status index, `toggleUncertaintyMode` one index per
component position.  `updateDeviceState`'s partial-object merge
`{...c.state, ...payload}` is modelled as a state-transformer. -/
inductive Action where
  | addComponent (dtype : String) (x y : ℚ) (rand : Fin 3)
  | removeComponent (id : Nat)
  | updateComponentPosition (id : Nat) (x y : ℚ)
  | updateDeviceState (id : Nat) (upd : DeviceState → DeviceState)
  | addConnection (fromId toId : Nat) (polarity : String)
  | removeConnection (index : Nat)
  | removeConnectionsForComponent (id : Nat)
  | setConnectionStart (point : Option (Nat × String))
  | clearConnectionStart
  | clearAll
  | loadProject (components : List Component) (connections : List Connection)
  | addAlert (kind title message : String)
  | dismissAlert (id : Nat)
  | toggleUncertaintyMode (rand : Nat → Fin 3)
  | toggleErrorSimulation (errorType : String)
  | toggleConnectionWireType (index : Nat)

/-- The store reducer (`simulatorReducer` in `SimulatorContext.jsx`). -/
def simulatorReducer (s : SimState) (action : Action) : SimState :=
  match action with
  | .addComponent dtype x y rand =>
    let newId := s.componentIdCounter
    let isUUC := getUUCTypes.contains dtype
    let complianceStatus : Option String :=
      if s.uncertaintyMode && isUUC then some (complianceStatusAt rand) else none
    let newComponent : Component :=
      { id := newId, type := dtype, x := x, y := y,
        state := { getInitialState dtype with complianceStatus := complianceStatus } }
    { s with components := s.components ++ [newComponent],
             componentIdCounter := newId + 1 }
  | .removeComponent id =>
    let comps := s.components.filter (fun c => c.id != id)
    let conns := s.connections.filter (fun conn => conn.fromId != id && conn.toId != id)
    { s with components := comps, connections := conns }
  | .updateComponentPosition id x y =>
    let comps := s.components.map (fun c => if c.id == id then { c with x := x, y := y } else c)
    { s with components := comps }
  | .updateDeviceState id upd =>
    let comps := s.components.map (fun c => if c.id == id then { c with state := upd c.state } else c)
    { s with components := comps }
  | .addConnection fromId toId polarity =>
    let newConn : Connection :=
      { fromId := fromId, toId := toId, polarity := jsOrStr polarity "hi",
        wireProperties := { type := "standard", resistance := 0.05 } }
    { s with connections := s.connections ++ [newConn], connectionStartPoint := none }
  | .removeConnection index =>
    { s with connections := s.connections.eraseIdx index }
  | .removeConnectionsForComponent id =>
    let conns := s.connections.filter (fun conn => conn.fromId != id && conn.toId != id)
    { s with connections := conns }
  | .setConnectionStart point =>
    { s with connectionStartPoint := point }
  | .clearConnectionStart =>
    { s with connectionStartPoint := none }
  | .clearAll =>
    initialState
  | .loadProject comps conns =>
    let counter := (comps.map (fun c => c.id)).foldr max 0 + 1
    { s with components := comps, connections := conns, componentIdCounter := counter }
  | .addAlert kind title message =>
    let alertId := s.alertIdCounter
    let newAlert : Alert := { id := alertId, kind := kind, title := title, message := message }
    { s with alerts := s.alerts ++ [newAlert], alertIdCounter := alertId + 1 }
  | .dismissAlert id =>
    { s with alerts := s.alerts.filter (fun a => a.id != id) }
  | .toggleUncertaintyMode rand =>
    let newMode := !s.uncertaintyMode
    let comps := s.components.mapIdx (fun i c =>
      let isUUC := getUUCTypes.contains c.type
      if isUUC && newMode then
        { c with state := { c.state with complianceStatus := some (complianceStatusAt (rand i)) } }
      else c)
    { s with uncertaintyMode := newMode, components := comps }
  | .toggleErrorSimulation errorType =>
    let es := s.errorSimulation
    let es2 :=
      if errorType == "loadingError" then { es with loadingError := !es.loadingError }
      else if errorType == "resolutionUncertainty" then
        { es with resolutionUncertainty := !es.resolutionUncertainty }
      else if errorType == "instrumentError" then
        { es with instrumentError := !es.instrumentError }
      else es
    { s with errorSimulation := es2 }
  | .toggleConnectionWireType index =>
    let conns := s.connections.mapIdx (fun i conn =>
      if i ≠ index then conn
      else
        { conn with wireProperties :=
            { type := if conn.wireProperties.type = "standard" then "bad" else "standard",
              resistance := if conn.wireProperties.type = "standard" then 5.0 else 0.05 } })
    { s with connections := conns }

/-- Failure reasons of the connection validator.  The source
(`checkConnectionCompatibility`) returns `{valid:false, message}` with a
distinct (Thai) user-facing message per failure branch; each constructor
names one branch, in source order. -/
inductive ConnectError where
  | deviceNotFound
  | unsupportedSourceRole
  | unsupportedSinkRole
  | duplicatePolarity
deriving Repr, DecidableEq

/-- The user-facing message the source attaches to each failure branch
(the duplicate-polarity message interpolates a polarity label). -/
def connectErrorMessage (e : ConnectError) (polarity : String) : String :=
  match e with
  | .deviceNotFound => "อุปกรณ์ไม่พบ"
  | .unsupportedSourceRole => "ต้องเชื่อมต่อจาก Calibrator"
  | .unsupportedSinkRole => "ต้องเชื่อมต่อไปยัง UUC"
  | .duplicatePolarity =>
    let polarityLabel := if polarity == "hi" then "HI" else "LO"
    "สาย " ++ polarityLabel ++ " เชื่อมต่อกันอยู่แล้ว"

/-- The connection validator (`checkConnectionCompatibility`): `none` means
`{valid:true}`, `some e` the failure branch taken. -/
def checkConnectionCompatibility (s : SimState) (fromId toId : Nat) (polarity : String) :
    Option ConnectError :=
  let fromComp := s.components.find? (fun c => c.id == fromId)
  let toComp := s.components.find? (fun c => c.id == toId)
  match fromComp, toComp with
  | some fc, some tc =>
    if !(getCalibratorTypes.contains fc.type) then some .unsupportedSourceRole
    else if !(getUUCTypes.contains tc.type) then some .unsupportedSinkRole
    else if (s.connections.find? (fun c =>
        c.fromId == fromId && c.toId == toId && c.polarity == polarity)).isSome then
      some .duplicatePolarity
    else none
  | _, _ => some .deviceNotFound

/-- The `addConnection` callback of the provider: validate, then either
dispatch `ADD_CONNECTION` plus a success alert, or only an error alert.
Returns the new store state and the validation outcome. -/
def addConnectionChecked (s : SimState) (fromId toId : Nat) (polarity : String) :
    SimState × Option ConnectError :=
  match checkConnectionCompatibility s fromId toId polarity with
  | none =>
    let s1 := simulatorReducer s (.addConnection fromId toId polarity)
    let polarityLabel := if polarity == "hi" then "HI (ขั้วบวก)" else "LO (ขั้วลบ)"
    let msg := "สาย " ++ polarityLabel ++ " เชื่อมต่อระหว่าง Calibrator และ UUC เรียบร้อยแล้ว"
    (simulatorReducer s1 (.addAlert "success" "เชื่อมต่อสำเร็จ" msg), none)
  | some e =>
    (simulatorReducer s (.addAlert "error" "เชื่อมต่อไม่สำเร็จ" (connectErrorMessage e polarity)),
     some e)

/-- First connection terminating at `toId` with the given polarity
(`connections.find(c => c.to === id && c.polarity === pol)`). -/
def findConn (connections : List Connection) (toId : Nat) (pol : String) : Option Connection :=
  connections.find? (fun c => c.toId == toId && c.polarity == pol)

/-- Circuit-pair selection of `getConnectedValue` (`Multimeter.jsx` lines
48–67): try the primary HI/LO pair, then the AUX pair; the Bool flag is
`isAuxConnection`. -/
def circuitOf (connections : List Connection) (selfId : Nat) : Option (Nat × Bool) :=
  let hiConn := findConn connections selfId "hi"
  let loConn := findConn connections selfId "lo"
  let auxHiConn := findConn connections selfId "aux_hi"
  let auxLoConn := findConn connections selfId "aux_lo"
  let auxCase : Option (Nat × Bool) :=
    match auxHiConn, auxLoConn with
    | some ah, some al => if ah.fromId = al.fromId then some (ah.fromId, true) else none
    | _, _ => none
  match hiConn, loConn with
  | some h, some l => if h.fromId = l.fromId then some (h.fromId, false) else auxCase
  | _, _ => auxCase

/-- Source lookup and power gate of `getConnectedValue` (lines 69–71):
resolve the circuit, find the source component, require `state.power`. -/
def resolveCircuit (components : List Component) (connections : List Connection)
    (selfId : Nat) : Option (Component × Bool) :=
  match circuitOf connections selfId with
  | none => none
  | some (sourceId, isAux) =>
    match components.find? (fun c => c.id == sourceId) with
    | none => none
    | some source => if source.state.power then some (source, isAux) else none

/-- The value object `getConnectedValue` returns.  Fields the sma100a branch
leaves undefined are `none`/defaulted. -/
structure ConnectedValue where
  value : ℚ
  unit : String
  mode : Option String := none
  mappedMode : Option String := none
  frequency : Option ℚ := none
  active : Bool
  wireResistance : Option ℚ := none
deriving Repr, DecidableEq

/-- Calibrator-to-multimeter mode mapping (`modeMapping` in
`Multimeter.jsx`). -/
def modeMapping : List (String × String) :=
  [("DC Voltage", "DC V"),
   ("AC Voltage", "AC V"),
   ("DC Current", "DC A"),
   ("AC Current", "AC A"),
   ("Resistance", "Ω"),
   ("Capacitance", "F"),
   ("Frequency", "Hz"),
   ("Temperature", "°C")]

/-- Embedding of `getConnectedValue` from `Multimeter.jsx` (lines 47–145): resolve the
circuit, compute the summed wire resistance when the loading-error flag is
on, apply the loading-error physics per source mode, and build the value
object for a powered, outputting calibrator (or an sma100a with RF on). -/
def getConnectedValue (components : List Component) (connections : List Connection)
    (selfId : Nat) (loadingError : Bool) : Option ConnectedValue :=
  match resolveCircuit components connections selfId with
  | none => none
  | some (source, isAuxConnection) =>
    let hiConn := findConn connections selfId "hi"
    let loConn := findConn connections selfId "lo"
    let auxHiConn := findConn connections selfId "aux_hi"
    let auxLoConn := findConn connections selfId "aux_lo"
    let wireResistance : ℚ :=
      if loadingError then
        let hiWire := if isAuxConnection then auxHiConn else hiConn
        let loWire := if isAuxConnection then auxLoConn else loConn
        let rHi := jsOrQ (hiWire.map (fun w => w.wireProperties.resistance)) 0.05
        let rLo := jsOrQ (loWire.map (fun w => w.wireProperties.resistance)) 0.05
        rHi + rLo
      else 0
    let measuredValue : ℚ :=
      if loadingError && source.state.output then
        let mode := source.state.mode
        if jsIncludes mode "Voltage" then
          let rMeter : ℚ := 10000000
          source.state.value * (rMeter / (rMeter + wireResistance))
        else if mode == "Resistance" then
          source.state.value + wireResistance
        else if jsIncludes mode "Current" then
          if wireResistance > 1 then source.state.value * 0.9995 else source.state.value
        else source.state.value
      else source.state.value
    if (source.type == "fluke5500a" || source.type == "fluke5522a") && source.state.output then
      some { value := measuredValue,
             unit := if isAuxConnection then "A" else source.state.unit,
             mode := some source.state.mode,
             mappedMode := some ((modeMapping.lookup source.state.mode).getD "DC V"),
             frequency := some (jsOrQ source.state.frequency 1000),
             active := true,
             wireResistance := some wireResistance }
    else if source.type == "sma100a" && source.state.rfOn then
      some { value := source.state.level, unit := "dBm", active := true }
    else none

/-- Base display value of the multimeter (`Multimeter.jsx` lines 154–165):
in Hz mode with an active circuit show the AC source's frequency (0 for non-AC
sources), otherwise the connected value or the device's own value. -/
def multimeterBaseValue (st : DeviceState) (connectedValue : Option ConnectedValue) : ℚ :=
  match connectedValue with
  | some cv =>
    if st.mode == "Hz" && cv.active then
      if cv.mode == some "AC Voltage" || cv.mode == some "AC Current" then
        cv.frequency.getD 0
      else 0
    else if cv.active then cv.value else st.value
  | none => st.value

/-- Tolerance lookup (`getTolerance` in `Multimeter.jsx`/`Fluke117.jsx`),
parametrised by the device config's tolerance table and the device's
fallback default (`0.01` for the multimeter, `0.5` for the Fluke 117): use
the mapped source mode when a circuit is active, then scale ×10 for
`out_of_tolerance` and ×3 for `non_compliance`. -/
def getTolerance (toleranceTable : List (String × ℚ)) (dflt : ℚ)
    (st : DeviceState) (connectedValue : Option ConnectedValue) : ℚ :=
  let effectiveMode :=
    match connectedValue with
    | some cv =>
      if cv.active then
        match cv.mappedMode with
        | some m => if m == "" then st.mode else m
        | none => st.mode
      else st.mode
    | none => st.mode
  let tolerance := jsOrQ (toleranceTable.lookup effectiveMode) dflt
  if st.complianceStatus == some "out_of_tolerance" then tolerance * 10
  else if st.complianceStatus == some "non_compliance" then tolerance * 3
  else tolerance

/-- One fluctuation sample (`updateFluctuation` in `Multimeter.jsx` lines
212–218): `r` stands for the `Math.random()` draw in `[0,1)`. -/
def updateFluctuation (baseValue tolerance r : ℚ) : ℚ :=
  let maxVariation := |baseValue| * (tolerance / 100)
  let randomOffset := (r - 0.5) * 2 * maxVariation
  baseValue + randomOffset

/-- Tolerance table of the Fluke 117 config (`Fluke117/index.js`). -/
def fluke117Tolerance : List (String × ℚ) :=
  [("DC V", 0.5), ("AC V", 1.0), ("DC mA", 1.0), ("AC mA", 1.5),
   ("Ω", 0.9), ("Hz", 0.5), ("Diode", 1.5), ("~V", 1.0)]

/-! ### Helper lemmas -/

theorem mapIdx_getElem? {α β : Type} (l : List α) (f : ℕ → α → β) (i : ℕ) :
    (l.mapIdx f)[i]? = (l[i]?).map (f i) := by
  rw [← List.get?_eq_getElem?, ← List.get?_eq_getElem?]
  by_cases h : i < l.length
  · have h' : i < (l.mapIdx f).length := by
      rw [List.length_mapIdx]; exact h
    rw [List.get?_eq_get h, List.get?_eq_get h', List.get_mapIdx l f i h]
    rfl
  · have h' : ¬ i < (l.mapIdx f).length := by
      rw [List.length_mapIdx]; exact h
    rw [List.get?_eq_none.2 (Nat.le_of_not_lt h), List.get?_eq_none.2 (Nat.le_of_not_lt h')]
    rfl

theorem mapIdx_get? {α β : Type} (l : List α) (f : ℕ → α → β) (i : ℕ) :
    (l.mapIdx f).get? i = (l.get? i).map (f i) := by
  by_cases h : i < l.length
  · have h' : i < (l.mapIdx f).length := by
      rw [List.length_mapIdx]; exact h
    rw [List.get?_eq_get h, List.get?_eq_get h', List.get_mapIdx l f i h]
    rfl
  · have h' : ¬ i < (l.mapIdx f).length := by
      rw [List.length_mapIdx]; exact h
    rw [List.get?_eq_none.2 (Nat.le_of_not_lt h), List.get?_eq_none.2 (Nat.le_of_not_lt h')]
    rfl

/-! ### Claim theorems -/

/-- C10: `clearAll` resets the store to `initialState` (counter `0`
included), so the first `addComponent` dispatched after a clear assigns id
`0` again; id uniqueness therefore does not survive a `clear()`. -/
theorem c10_clear_resets_counter (s : SimState) (dtype : String) (x y : ℚ) (r : Fin 3) :
    simulatorReducer s .clearAll = initialState ∧
    (simulatorReducer (simulatorReducer s .clearAll) (.addComponent dtype x y r)).components.map
      (fun c => c.id) = [0] := by
  constructor
  · rfl
  · rfl

/-- C9: toggling a connection's wire kind flips only that connection's
`wireProperties` — `standard`/`0.05` to `bad`/`5.0` and back — leaving its
`from`/`to`/`polarity` identity, every other connection, and the rest of the
store unchanged. -/
theorem c9_toggle_wire_frame (s : SimState) (index : Nat) :
    (simulatorReducer s (.toggleConnectionWireType index)).components = s.components ∧
    (simulatorReducer s (.toggleConnectionWireType index)).componentIdCounter =
      s.componentIdCounter ∧
    (simulatorReducer s (.toggleConnectionWireType index)).uncertaintyMode = s.uncertaintyMode ∧
    (simulatorReducer s (.toggleConnectionWireType index)).errorSimulation = s.errorSimulation ∧
    (∀ j, j ≠ index →
      (simulatorReducer s (.toggleConnectionWireType index)).connections.get? j =
        s.connections.get? j) ∧
    (∀ c, s.connections.get? index = some c →
      (simulatorReducer s (.toggleConnectionWireType index)).connections.get? index =
        some { c with wireProperties :=
          if c.wireProperties.type = "standard" then
            { type := "bad", resistance := 5.0 }
          else
            { type := "standard", resistance := 0.05 } }) := by
  refine ⟨rfl, rfl, rfl, rfl, ?_, ?_⟩
  · intro j hj
    simp only [simulatorReducer, mapIdx_get?]
    cases hc : s.connections.get? j with
    | none => rfl
    | some c =>
      simp only [Option.map_some']
      rw [if_pos hj]
  · intro c hc
    simp only [simulatorReducer, mapIdx_get?, hc, Option.map_some']
    rw [if_neg (by simp)]
    by_cases ht : c.wireProperties.type = "standard"
    · rw [if_pos ht, if_pos ht, if_pos ht]
    · rw [if_neg ht, if_neg ht, if_neg ht]

/-! ### Concrete bench scenarios used by the loading-error claims -/

/-- Standard test lead (0.05 Ω). -/
def standardWire : WireProperties := { type := "standard", resistance := 0.05 }

/-- Bad test lead (5.0 Ω). -/
def badWire : WireProperties := { type := "bad", resistance := 5.0 }

/-- A Fluke 5500A programmed to 10 V DC with output on. -/
def volt10Cal : Component :=
  { id := 0, type := "fluke5500a",
    state := { getInitialState "fluke5500a" with output := true, value := 10 } }

/-- A Fluke 5500A programmed to 1000 Ω with output on. -/
def ohm1000Cal : Component :=
  { id := 0, type := "fluke5500a",
    state := { getInitialState "fluke5500a" with output := true, mode := "Resistance", value := 1000, unit := "Ω" } }

/-- A digital multimeter sink. -/
def demoMeter : Component :=
  { id := 1, type := "multimeter", state := getInitialState "multimeter" }

/-- HI wire calibrator→meter with a standard lead. -/
def hiStd : Connection :=
  { fromId := 0, toId := 1, polarity := "hi", wireProperties := standardWire }

/-- LO wire calibrator→meter with a standard lead. -/
def loStd : Connection :=
  { fromId := 0, toId := 1, polarity := "lo", wireProperties := standardWire }

/-- HI wire calibrator→meter with a bad lead. -/
def hiBad : Connection :=
  { fromId := 0, toId := 1, polarity := "hi", wireProperties := badWire }

/-- LO wire calibrator→meter with a bad lead. -/
def loBad : Connection :=
  { fromId := 0, toId := 1, polarity := "lo", wireProperties := badWire }

/-- C1: with the loading-error flag on, a resolved circuit from an
outputting calibrator in a voltage mode measures
`programmed * (Rmeter / (Rmeter + Rwire))` with `Rmeter = 10 MΩ` and
`Rwire` the sum of the two terminal wires' resistances; in particular the
10 V DC source through two 0.05 Ω standard wires reads
`10 * (1e7 / (1e7 + 0.1))`, within `1e-6` V. -/
theorem c1_voltage_loading_error :
    (∀ (components : List Component) (connections : List Connection) (selfId : Nat)
       (source : Component) (isAux : Bool) (hw lw : Connection),
       resolveCircuit components connections selfId = some (source, isAux) →
       findConn connections selfId (if isAux then "aux_hi" else "hi") = some hw →
       findConn connections selfId (if isAux then "aux_lo" else "lo") = some lw →
       (source.type = "fluke5500a" ∨ source.type = "fluke5522a") →
       source.state.output = true →
       (source.state.mode = "DC Voltage" ∨ source.state.mode = "AC Voltage") →
       hw.wireProperties.resistance ≠ 0 →
       lw.wireProperties.resistance ≠ 0 →
       ∃ cv, getConnectedValue components connections selfId true = some cv ∧
         cv.value = source.state.value * (10000000 / (10000000 +
           (hw.wireProperties.resistance + lw.wireProperties.resistance)))) ∧
    (∃ cv, getConnectedValue [volt10Cal, demoMeter] [hiStd, loStd] 1 true = some cv ∧
       |cv.value - 10 * (10000000 / (10000000 + 1/10))| ≤ 1/1000000) := by
  have gen : ∀ (components : List Component) (connections : List Connection) (selfId : Nat)
      (source : Component) (isAux : Bool) (hw lw : Connection),
      resolveCircuit components connections selfId = some (source, isAux) →
      findConn connections selfId (if isAux then "aux_hi" else "hi") = some hw →
      findConn connections selfId (if isAux then "aux_lo" else "lo") = some lw →
      (source.type = "fluke5500a" ∨ source.type = "fluke5522a") →
      source.state.output = true →
      (source.state.mode = "DC Voltage" ∨ source.state.mode = "AC Voltage") →
      hw.wireProperties.resistance ≠ 0 →
      lw.wireProperties.resistance ≠ 0 →
      ∃ cv, getConnectedValue components connections selfId true = some cv ∧
        cv.value = source.state.value * (10000000 / (10000000 +
          (hw.wireProperties.resistance + lw.wireProperties.resistance))) := by
    intro components connections selfId source isAux hw lw hres hhi hlo htype hout hmode hr1 hr2
    have hv : jsIncludes source.state.mode "Voltage" = true := by
      rcases hmode with h1 | h1 <;> rw [h1] <;> rfl
    cases isAux with
    | false =>
      rw [if_neg Bool.false_ne_true] at hhi hlo
      rcases htype with h1 | h1 <;>
        simp [getConnectedValue, hres, hhi, hlo, jsOrQ, hv, hout, h1, hr1, hr2]
    | true =>
      rw [if_pos rfl] at hhi hlo
      rcases htype with h1 | h1 <;>
        simp [getConnectedValue, hres, hhi, hlo, jsOrQ, hv, hout, h1, hr1, hr2]
  refine ⟨gen, ?_⟩
  obtain ⟨cv, hcv, hval⟩ :=
    gen [volt10Cal, demoMeter] [hiStd, loStd] 1 volt10Cal false hiStd loStd rfl rfl rfl
      (Or.inl rfl) rfl (Or.inl rfl) (by norm_num [hiStd, standardWire])
      (by norm_num [loStd, standardWire])
  refine ⟨cv, hcv, ?_⟩
  rw [hval]
  have e1 : volt10Cal.state.value = 10 := rfl
  have e2 : hiStd.wireProperties.resistance = 0.05 := rfl
  have e3 : loStd.wireProperties.resistance = 0.05 := rfl
  rw [e1, e2, e3]
  norm_num

/-- C6: with the loading-error flag on, a resolved circuit from an
outputting calibrator in Resistance mode measures `programmed + Rwire`
(two-wire measurement); in particular 1000 Ω through two bad wires
(10 Ω total) reads exactly 1010 Ω. -/
theorem c6_resistance_loading_error :
    (∀ (components : List Component) (connections : List Connection) (selfId : Nat)
       (source : Component) (isAux : Bool) (hw lw : Connection),
       resolveCircuit components connections selfId = some (source, isAux) →
       findConn connections selfId (if isAux then "aux_hi" else "hi") = some hw →
       findConn connections selfId (if isAux then "aux_lo" else "lo") = some lw →
       (source.type = "fluke5500a" ∨ source.type = "fluke5522a") →
       source.state.output = true →
       source.state.mode = "Resistance" →
       hw.wireProperties.resistance ≠ 0 →
       lw.wireProperties.resistance ≠ 0 →
       ∃ cv, getConnectedValue components connections selfId true = some cv ∧
         cv.value = source.state.value +
           (hw.wireProperties.resistance + lw.wireProperties.resistance)) ∧
    (∃ cv, getConnectedValue [ohm1000Cal, demoMeter] [hiBad, loBad] 1 true = some cv ∧
       cv.value = 1010) := by
  have gen : ∀ (components : List Component) (connections : List Connection) (selfId : Nat)
      (source : Component) (isAux : Bool) (hw lw : Connection),
      resolveCircuit components connections selfId = some (source, isAux) →
      findConn connections selfId (if isAux then "aux_hi" else "hi") = some hw →
      findConn connections selfId (if isAux then "aux_lo" else "lo") = some lw →
      (source.type = "fluke5500a" ∨ source.type = "fluke5522a") →
      source.state.output = true →
      source.state.mode = "Resistance" →
      hw.wireProperties.resistance ≠ 0 →
      lw.wireProperties.resistance ≠ 0 →
      ∃ cv, getConnectedValue components connections selfId true = some cv ∧
        cv.value = source.state.value +
          (hw.wireProperties.resistance + lw.wireProperties.resistance) := by
    intro components connections selfId source isAux hw lw hres hhi hlo htype hout hmode hr1 hr2
    have hv : jsIncludes source.state.mode "Voltage" = false := by rw [hmode]; rfl
    have hm : (source.state.mode == "Resistance") = true := by rw [hmode]; rfl
    cases isAux with
    | false =>
      rw [if_neg Bool.false_ne_true] at hhi hlo
      rcases htype with h1 | h1 <;>
        simp [getConnectedValue, hres, hhi, hlo, jsOrQ, hv, hm, hout, h1, hr1, hr2]
    | true =>
      rw [if_pos rfl] at hhi hlo
      rcases htype with h1 | h1 <;>
        simp [getConnectedValue, hres, hhi, hlo, jsOrQ, hv, hm, hout, h1, hr1, hr2]
  refine ⟨gen, ?_⟩
  obtain ⟨cv, hcv, hval⟩ :=
    gen [ohm1000Cal, demoMeter] [hiBad, loBad] 1 ohm1000Cal false hiBad loBad rfl rfl rfl
      (Or.inl rfl) rfl rfl (by norm_num [hiBad, badWire]) (by norm_num [loBad, badWire])
  refine ⟨cv, hcv, ?_⟩
  rw [hval]
  have e1 : ohm1000Cal.state.value = 1000 := rfl
  have e2 : hiBad.wireProperties.resistance = 5.0 := rfl
  have e3 : loBad.wireProperties.resistance = 5.0 := rfl
  rw [e1, e2, e3]
  norm_num

/-- Helper: a standard wire's resistance is non-zero. -/
theorem standardWire_resistance_ne_zero : standardWire.resistance ≠ 0 := by
  norm_num [standardWire]

/-- Helper: a bad wire's resistance is non-zero. -/
theorem badWire_resistance_ne_zero : badWire.resistance ≠ 0 := by
  norm_num [badWire]

/-- Witness for C1: the 10 V DC scenario through two standard wires. -/
theorem c1_voltage_loading_error_witness :
    ∃ cv, getConnectedValue [volt10Cal, demoMeter] [hiStd, loStd] 1 true = some cv ∧
      cv.value = volt10Cal.state.value * (10000000 / (10000000 +
        (hiStd.wireProperties.resistance + loStd.wireProperties.resistance))) :=
  c1_voltage_loading_error.1 [volt10Cal, demoMeter] [hiStd, loStd] 1 volt10Cal false hiStd loStd
    rfl rfl rfl (Or.inl rfl) rfl (Or.inl rfl)
    standardWire_resistance_ne_zero standardWire_resistance_ne_zero

/-- Witness for C6: the 1000 Ω scenario through two bad wires. -/
theorem c6_resistance_loading_error_witness :
    ∃ cv, getConnectedValue [ohm1000Cal, demoMeter] [hiBad, loBad] 1 true = some cv ∧
      cv.value = ohm1000Cal.state.value +
        (hiBad.wireProperties.resistance + loBad.wireProperties.resistance) :=
  c6_resistance_loading_error.1 [ohm1000Cal, demoMeter] [hiBad, loBad] 1 ohm1000Cal false
    hiBad loBad rfl rfl rfl (Or.inl rfl) rfl rfl
    badWire_resistance_ne_zero badWire_resistance_ne_zero

/-- Helper: shape of the value object returned for a powered, outputting
Fluke calibrator source (any loading-error flag). -/
theorem getConnectedValue_fluke (components : List Component) (connections : List Connection)
    (selfId : Nat) (le : Bool) (source : Component) (isAux : Bool)
    (hres : resolveCircuit components connections selfId = some (source, isAux))
    (htype : source.type = "fluke5500a" ∨ source.type = "fluke5522a")
    (hout : source.state.output = true) :
    ∃ cv, getConnectedValue components connections selfId le = some cv ∧
      cv.active = true ∧
      cv.mode = some source.state.mode ∧
      cv.frequency = some (jsOrQ source.state.frequency 1000) ∧
      cv.unit = (if isAux then "A" else source.state.unit) ∧
      cv.mappedMode = some ((modeMapping.lookup source.state.mode).getD "DC V") := by
  rcases htype with h1 | h1 <;>
    simp [getConnectedValue, hres, h1, hout]

/-- C7: with the meter's selected mode set to Hz and a resolved active
circuit, an AC-voltage or AC-current source displays its programmed
frequency (not its amplitude); any other source mode displays zero. -/
theorem c7_hz_mode_displays_frequency
    (components : List Component) (connections : List Connection) (selfId : Nat)
    (st : DeviceState) (le : Bool) (source : Component) (isAux : Bool)
    (hres : resolveCircuit components connections selfId = some (source, isAux))
    (htype : source.type = "fluke5500a" ∨ source.type = "fluke5522a")
    (hout : source.state.output = true)
    (hHz : st.mode = "Hz") :
    ((source.state.mode = "AC Voltage" ∨ source.state.mode = "AC Current") →
      ∀ f, source.state.frequency = some f → f ≠ 0 →
        multimeterBaseValue st (getConnectedValue components connections selfId le) = f) ∧
    (source.state.mode ≠ "AC Voltage" → source.state.mode ≠ "AC Current" →
      multimeterBaseValue st (getConnectedValue components connections selfId le) = 0) := by
  obtain ⟨cv, hcv, hact, hmode, hfreq, -, -⟩ :=
    getConnectedValue_fluke components connections selfId le source isAux hres htype hout
  rw [hcv]
  constructor
  · intro hac f hf hf0
    rcases hac with h1 | h1 <;>
      simp [multimeterBaseValue, hHz, hact, hmode, hfreq, h1, jsOrQ, hf, hf0]
  · intro h1 h2
    simp [multimeterBaseValue, hHz, hact, hmode, h1, h2]

/-- Completeness of one terminal pair, as the spec states it: both polarity
wires terminate at the sink and originate from the same source id `sid`
(`findConn` returns the first match, as the source's `connections.find`
does). -/
def pairComplete (connections : List Connection) (d : Nat) (pHi pLo : String) (sid : Nat) : Prop :=
  ∃ h l, findConn connections d pHi = some h ∧ findConn connections d pLo = some l ∧
    h.fromId = sid ∧ l.fromId = sid

/-- Helper: full characterization of the terminal-pair selection. -/
theorem circuitOf_spec (conns : List Connection) (d sid : Nat) (aux : Bool) :
    circuitOf conns d = some (sid, aux) ↔
      (aux = false ∧ pairComplete conns d "hi" "lo" sid) ∨
      (aux = true ∧ (∀ s2, ¬ pairComplete conns d "hi" "lo" s2) ∧
        pairComplete conns d "aux_hi" "aux_lo" sid) := by
  unfold circuitOf
  rcases hh : findConn conns d "hi" with _ | h <;>
    rcases hl : findConn conns d "lo" with _ | l <;>
      rcases hah : findConn conns d "aux_hi" with _ | ah <;>
        rcases hal : findConn conns d "aux_lo" with _ | al <;>
          simp_all [pairComplete] <;>
            (try split_ifs) <;>
              (try simp_all) <;>
                aesop

/-- C2: circuit resolution yields a source exactly when one terminal pair is
complete — both polarity wires at the sink sharing one source id — and that
source is powered; otherwise it is `none` ("not measuring", no error).  The
primary HI/LO pair takes precedence over the AUX pair, and a circuit
resolved through the AUX pair carries the flag that makes the calibrator
branch display amps (`unit = "A"`). -/
theorem c2_resolution_characterization (components : List Component)
    (connections : List Connection) (d : Nat) :
    (∀ src aux, resolveCircuit components connections d = some (src, aux) ↔
      ∃ sid, components.find? (fun c => c.id == sid) = some src ∧ src.state.power = true ∧
        ((aux = false ∧ pairComplete connections d "hi" "lo" sid) ∨
         (aux = true ∧ (∀ s2, ¬ pairComplete connections d "hi" "lo" s2) ∧
           pairComplete connections d "aux_hi" "aux_lo" sid))) ∧
    (∀ le src cv, resolveCircuit components connections d = some (src, true) →
      (src.type = "fluke5500a" ∨ src.type = "fluke5522a") →
      getConnectedValue components connections d le = some cv → cv.unit = "A") := by
  constructor
  · intro src aux
    constructor
    · intro hres
      unfold resolveCircuit at hres
      rcases hc : circuitOf connections d with _ | ⟨sid, aux'⟩
      · rw [hc] at hres
        exact absurd hres (by simp)
      · rw [hc] at hres
        dsimp only at hres
        rcases hf : components.find? (fun c => c.id == sid) with _ | source
        · rw [hf] at hres
          exact absurd hres (by simp)
        · rw [hf] at hres
          dsimp only at hres
          by_cases hp : source.state.power = true
          · rw [if_pos hp] at hres
            simp only [Option.some.injEq, Prod.mk.injEq] at hres
            obtain ⟨hsrc, haux⟩ := hres
            subst hsrc
            exact ⟨sid, hf, hp, (circuitOf_spec connections d sid _).mp (haux ▸ hc)⟩
          · rw [if_neg hp] at hres
            exact absurd hres (by simp)
    · intro hrhs
      obtain ⟨sid, hfind, hpow, hdisj⟩ := hrhs
      have hc : circuitOf connections d = some (sid, aux) :=
        (circuitOf_spec connections d sid aux).mpr hdisj
      unfold resolveCircuit
      rw [hc]
      dsimp only
      rw [hfind]
      dsimp only
      rw [if_pos hpow]
  · intro le src cv hres htype hcv
    by_cases hout : src.state.output = true
    · obtain ⟨cv', hcv', -, -, -, hunit, -⟩ :=
        getConnectedValue_fluke components connections d le src true hres htype hout
      rw [hcv] at hcv'
      obtain rfl := Option.some.inj hcv'
      simpa using hunit
    · rw [Bool.not_eq_true] at hout
      rcases htype with h1 | h1 <;>
        simp [getConnectedValue, hres, h1, hout] at hcv

/-- C3: the validator applies exactly four rules in order — ids exist,
source role is calibrator, sink role is uuc, no duplicate
`(from, to, polarity)` triple — and on any failure the caller adds no
connection (the connections list is unchanged), while on success exactly the
proposed wire is appended. -/
theorem c3_validator_rules (s : SimState) (fromId toId : Nat) (polarity : String) :
    (checkConnectionCompatibility s fromId toId polarity = some .deviceNotFound ↔
      s.components.find? (fun c => c.id == fromId) = none ∨
      s.components.find? (fun c => c.id == toId) = none) ∧
    (checkConnectionCompatibility s fromId toId polarity = some .unsupportedSourceRole ↔
      ∃ fc tc, s.components.find? (fun c => c.id == fromId) = some fc ∧
        s.components.find? (fun c => c.id == toId) = some tc ∧
        getCalibratorTypes.contains fc.type = false) ∧
    (checkConnectionCompatibility s fromId toId polarity = some .unsupportedSinkRole ↔
      ∃ fc tc, s.components.find? (fun c => c.id == fromId) = some fc ∧
        s.components.find? (fun c => c.id == toId) = some tc ∧
        getCalibratorTypes.contains fc.type = true ∧
        getUUCTypes.contains tc.type = false) ∧
    (checkConnectionCompatibility s fromId toId polarity = some .duplicatePolarity ↔
      ∃ fc tc, s.components.find? (fun c => c.id == fromId) = some fc ∧
        s.components.find? (fun c => c.id == toId) = some tc ∧
        getCalibratorTypes.contains fc.type = true ∧
        getUUCTypes.contains tc.type = true ∧
        ∃ c ∈ s.connections, c.fromId = fromId ∧ c.toId = toId ∧ c.polarity = polarity) ∧
    (checkConnectionCompatibility s fromId toId polarity = none ↔
      ∃ fc tc, s.components.find? (fun c => c.id == fromId) = some fc ∧
        s.components.find? (fun c => c.id == toId) = some tc ∧
        getCalibratorTypes.contains fc.type = true ∧
        getUUCTypes.contains tc.type = true ∧
        ¬ ∃ c ∈ s.connections, c.fromId = fromId ∧ c.toId = toId ∧ c.polarity = polarity) ∧
    (∀ e, checkConnectionCompatibility s fromId toId polarity = some e →
      (addConnectionChecked s fromId toId polarity).1.connections = s.connections) ∧
    (checkConnectionCompatibility s fromId toId polarity = none →
      (addConnectionChecked s fromId toId polarity).1.connections = s.connections ++
        [{ fromId := fromId, toId := toId, polarity := jsOrStr polarity "hi",
           wireProperties := { type := "standard", resistance := 0.05 } }]) := by
  rcases hf : s.components.find? (fun c => c.id == fromId) with _ | fc <;>
    rcases ht : s.components.find? (fun c => c.id == toId) with _ | tc
  · simp [checkConnectionCompatibility, hf, ht, addConnectionChecked, simulatorReducer]
  · simp [checkConnectionCompatibility, hf, ht, addConnectionChecked, simulatorReducer]
  · simp [checkConnectionCompatibility, hf, ht, addConnectionChecked, simulatorReducer]
  · by_cases hcal : fc.type ∈ getCalibratorTypes
    · by_cases huuc : tc.type ∈ getUUCTypes
      · by_cases hdup : ∃ c ∈ s.connections,
            c.fromId = fromId ∧ c.toId = toId ∧ c.polarity = polarity
        · simp [checkConnectionCompatibility, hf, ht, hcal, huuc, hdup, and_assoc,
            addConnectionChecked, simulatorReducer]
        · simp [checkConnectionCompatibility, hf, ht, hcal, huuc, hdup, and_assoc,
            addConnectionChecked, simulatorReducer]
      · simp [checkConnectionCompatibility, hf, ht, hcal, huuc, and_assoc,
          addConnectionChecked, simulatorReducer]
    · simp [checkConnectionCompatibility, hf, ht, hcal, and_assoc, addConnectionChecked,
        simulatorReducer]

/-- Helper: every drawn compliance status is one of the three non-null
statuses. -/
theorem complianceStatusAt_mem (i : Fin 3) : complianceStatusAt i ∈ COMPLIANCE_STATUSES := by
  fin_cases i <;> decide

/-- The component record `ADD_COMPONENT` constructs (template state with the
drawn compliance status written over it). -/
def newComponent (id : Nat) (dtype : String) (x y : ℚ) (cs : Option String) : Component :=
  { id := id, type := dtype, x := x, y := y,
    state := { getInitialState dtype with complianceStatus := cs } }

/-- C8: (a) a uuc component added while global uncertainty mode is on gets a
complianceStatus drawn from the three non-null statuses, and `none` when the
mode is off or the role is not uuc; (b) toggling the mode off→on assigns a
fresh drawn status to every existing uuc component and leaves the others
untouched; (c) toggling on→off leaves the whole component list unchanged. -/
theorem c8_compliance_tagging (s : SimState) :
    (∀ (dtype : String) (x y : ℚ) (r : Fin 3),
      s.uncertaintyMode = true → getUUCTypes.contains dtype = true →
      complianceStatusAt r ∈ COMPLIANCE_STATUSES ∧
      (simulatorReducer s (.addComponent dtype x y r)).components =
        s.components ++
          [newComponent s.componentIdCounter dtype x y (some (complianceStatusAt r))]) ∧
    (∀ (dtype : String) (x y : ℚ) (r : Fin 3),
      s.uncertaintyMode = false ∨ getUUCTypes.contains dtype = false →
      (simulatorReducer s (.addComponent dtype x y r)).components =
        s.components ++ [newComponent s.componentIdCounter dtype x y none]) ∧
    (∀ (rand : Nat → Fin 3) (i : Nat) (c : Component),
      s.uncertaintyMode = false → s.components.get? i = some c →
      (getUUCTypes.contains c.type = true →
        complianceStatusAt (rand i) ∈ COMPLIANCE_STATUSES ∧
        (simulatorReducer s (.toggleUncertaintyMode rand)).components.get? i =
          some { c with state := { c.state with
            complianceStatus := some (complianceStatusAt (rand i)) } }) ∧
      (getUUCTypes.contains c.type = false →
        (simulatorReducer s (.toggleUncertaintyMode rand)).components.get? i = some c)) ∧
    (∀ rand : Nat → Fin 3, s.uncertaintyMode = true →
      (simulatorReducer s (.toggleUncertaintyMode rand)).components = s.components) := by
  refine ⟨?_, ?_, ?_, ?_⟩
  · intro dtype x y r hm hu
    have hu' : dtype ∈ getUUCTypes := by simpa using hu
    refine ⟨complianceStatusAt_mem r, ?_⟩
    simp [simulatorReducer, newComponent, hm, hu']
  · intro dtype x y r hcase
    rcases hcase with hm | hu
    · simp [simulatorReducer, newComponent, hm]
    · have hu' : dtype ∉ getUUCTypes := by simpa using hu
      simp [simulatorReducer, newComponent, hu']
  · intro rand i c hm hget
    have hget' : s.components[i]? = some c := by
      rw [← List.get?_eq_getElem?]; exact hget
    constructor
    · intro hu
      have hu' : c.type ∈ getUUCTypes := by simpa using hu
      refine ⟨complianceStatusAt_mem (rand i), ?_⟩
      simp [simulatorReducer, mapIdx_getElem?, hget', hm, hu']
    · intro hu
      have hu' : c.type ∉ getUUCTypes := by simpa using hu
      simp [simulatorReducer, mapIdx_getElem?, hget', hm, hu']
  · intro rand hm
    have hext : ∀ j, (simulatorReducer s (.toggleUncertaintyMode rand)).components.get? j =
        s.components.get? j := by
      intro j
      simp only [simulatorReducer, hm, mapIdx_get?]
      cases s.components.get? j with
      | none => rfl
      | some c => simp
    exact List.ext_get? hext

/-- A Fluke 117-style meter state dialed to AC V with no compliance tag
(the spec's base-100, tolerance-1% sampling scenario). -/
def acvMeterState : DeviceState :=
  { power := true, mode := "AC V", value := 0, unit := "V" }

/-- Helper: the effective tolerance of the AC V scenario is 1 (percent). -/
theorem getTolerance_acv : getTolerance fluke117Tolerance 0.5 acvMeterState none = 1 := by
  norm_num [getTolerance, fluke117Tolerance, acvMeterState, jsOrQ, List.lookup,
    show ("AC V" == "DC V") = false from rfl]

/-- Helper: that tolerance is nonnegative. -/
theorem getTolerance_acv_nonneg : 0 ≤ getTolerance fluke117Tolerance 0.5 acvMeterState none := by
  rw [getTolerance_acv]
  norm_num

/-- Effective tolerance of the shared hook (`getEffectiveTolerance` in
`useUncertaintyMode.js`): the mode tolerance scaled ×10 for
`out_of_tolerance` and ×3 for `non_compliance`. -/
def getEffectiveTolerance (tolerance : ℚ) (complianceStatus : Option String) : ℚ :=
  if complianceStatus = some "out_of_tolerance" then tolerance * 10
  else if complianceStatus = some "non_compliance" then tolerance * 3
  else tolerance

/-- One sample of the shared hook's `updateFluctuation`
(`useUncertaintyMode.js`, used by AnalogMultimeter/ClampMeter/U3606A):
beyond the tolerance-bounded `randomOffset` it adds a centred
minimum-noise term `(random − 0.5) * (|base| * 0.0001 || 0.0001)`.
`r1`, `r2` stand for the two `Math.random()` draws in `[0,1)`. -/
def hookUpdateFluctuation (baseValue tolerance : ℚ) (complianceStatus : Option String)
    (r1 r2 : ℚ) : ℚ :=
  let effectiveTolerance := getEffectiveTolerance tolerance complianceStatus
  let maxVariation := |baseValue| * (effectiveTolerance / 100)
  let randomOffset := (r1 - 0.5) * 2 * maxVariation
  let minNoise := jsOrQ (some (|baseValue| * 0.0001)) 0.0001
  let totalOffset := randomOffset + (r2 - 0.5) * minNoise
  baseValue + totalOffset

/-- C5 (amended): samples of the per-device resolution-uncertainty sampler
(`updateFluctuation` in `Multimeter.jsx`/`Fluke117.jsx`) are `base + offset`
with `|offset| ≤ |base| * (effectiveTolerance / 100)`, the effective
tolerance being the mode tolerance scaled ×10 for `out_of_tolerance`, ×3
for `non_compliance`; at base 100 and tolerance 1 % they stay in
`[99, 101]`.  Samples of the shared hook sampler (`useUncertaintyMode.js`)
carry an extra centred minimum-noise term of half-width
`(|base| * 0.0001 || 0.0001) / 2` on top of that bound, so at base 100 and
tolerance 1 % they are only guaranteed to stay in `[98.995, 101.005]`. -/
theorem c5_fluctuation_bounds (tbl : List (String × ℚ)) (dflt : ℚ) (st : DeviceState)
    (cv : Option ConnectedValue) (base r : ℚ)
    (h0 : 0 ≤ r) (h1 : r ≤ 1) (htol : 0 ≤ getTolerance tbl dflt st cv) :
    (updateFluctuation base (getTolerance tbl dflt st cv) r =
      base + (r - 0.5) * 2 * (|base| * (getTolerance tbl dflt st cv / 100))) ∧
    |updateFluctuation base (getTolerance tbl dflt st cv) r - base| ≤
      |base| * (getTolerance tbl dflt st cv / 100) ∧
    (st.complianceStatus = some "out_of_tolerance" →
      getTolerance tbl dflt st cv =
        10 * getTolerance tbl dflt { st with complianceStatus := none } cv) ∧
    (st.complianceStatus = some "non_compliance" →
      getTolerance tbl dflt st cv =
        3 * getTolerance tbl dflt { st with complianceStatus := none } cv) ∧
    (∀ r2 : ℚ, 0 ≤ r2 → r2 ≤ 1 →
      99 ≤ updateFluctuation 100 (getTolerance fluke117Tolerance 0.5 acvMeterState none) r2 ∧
      updateFluctuation 100 (getTolerance fluke117Tolerance 0.5 acvMeterState none) r2 ≤ 101) ∧
    (∀ (base2 tol2 : ℚ) (cs : Option String) (r1 r2 : ℚ),
      0 ≤ r1 → r1 ≤ 1 → 0 ≤ r2 → r2 ≤ 1 → 0 ≤ getEffectiveTolerance tol2 cs →
      |hookUpdateFluctuation base2 tol2 cs r1 r2 - base2| ≤
        |base2| * (getEffectiveTolerance tol2 cs / 100) +
          jsOrQ (some (|base2| * 0.0001)) 0.0001 / 2) ∧
    (∀ tol2 : ℚ,
      getEffectiveTolerance tol2 (some "out_of_tolerance") =
        10 * getEffectiveTolerance tol2 none ∧
      getEffectiveTolerance tol2 (some "non_compliance") =
        3 * getEffectiveTolerance tol2 none) ∧
    (∀ r1 r2 : ℚ, 0 ≤ r1 → r1 ≤ 1 → 0 ≤ r2 → r2 ≤ 1 →
      98.995 ≤ hookUpdateFluctuation 100 1 none r1 r2 ∧
      hookUpdateFluctuation 100 1 none r1 r2 ≤ 101.005) := by
  have habs : |r - (0.5 : ℚ)| ≤ 0.5 := by
    rw [abs_le]
    constructor <;> linarith
  have hM : (0 : ℚ) ≤ |base| * (getTolerance tbl dflt st cv / 100) :=
    mul_nonneg (abs_nonneg base) (div_nonneg htol (by norm_num))
  refine ⟨rfl, ?_, ?_, ?_, ?_, ?_, ?_, ?_⟩
  · have hdiff : updateFluctuation base (getTolerance tbl dflt st cv) r - base =
        (r - 0.5) * 2 * (|base| * (getTolerance tbl dflt st cv / 100)) := by
      simp [updateFluctuation]
    rw [hdiff, abs_mul, abs_mul]
    have h2 : |(2 : ℚ)| = 2 := by norm_num
    rw [h2, abs_of_nonneg hM]
    nlinarith [habs, hM]
  · intro hc
    simp [getTolerance, hc, mul_comm]
  · intro hc
    simp [getTolerance, hc, mul_comm]
  · intro r2 h20 h21
    rw [getTolerance_acv]
    unfold updateFluctuation
    have habs100 : |(100 : ℚ)| = 100 := by norm_num
    rw [habs100]
    constructor <;> nlinarith
  · intro base2 tol2 cs r1 r2 h10 h11 h20 h21 htol2
    have habs1 : |r1 - (0.5 : ℚ)| ≤ 0.5 := by
      rw [abs_le]
      constructor <;> linarith
    have habs2 : |r2 - (0.5 : ℚ)| ≤ 0.5 := by
      rw [abs_le]
      constructor <;> linarith
    have hMn : (0 : ℚ) ≤ jsOrQ (some (|base2| * 0.0001)) 0.0001 := by
      simp only [jsOrQ]
      split_ifs with h
      · norm_num
      · positivity
    have hM2 : (0 : ℚ) ≤ |base2| * (getEffectiveTolerance tol2 cs / 100) :=
      mul_nonneg (abs_nonneg _) (div_nonneg htol2 (by norm_num))
    have hdiff : hookUpdateFluctuation base2 tol2 cs r1 r2 - base2 =
        (r1 - 0.5) * 2 * (|base2| * (getEffectiveTolerance tol2 cs / 100)) +
          (r2 - 0.5) * jsOrQ (some (|base2| * 0.0001)) 0.0001 := by
      simp [hookUpdateFluctuation]
    have hA : |(r1 - 0.5) * 2 * (|base2| * (getEffectiveTolerance tol2 cs / 100))| ≤
        |base2| * (getEffectiveTolerance tol2 cs / 100) := by
      rw [abs_mul, abs_mul]
      have h2 : |(2 : ℚ)| = 2 := by norm_num
      rw [h2, abs_of_nonneg hM2]
      nlinarith [habs1, hM2]
    have hB : |(r2 - 0.5) * jsOrQ (some (|base2| * 0.0001)) 0.0001| ≤
        jsOrQ (some (|base2| * 0.0001)) 0.0001 / 2 := by
      rw [abs_mul, abs_of_nonneg hMn]
      nlinarith [habs2, hMn]
    calc |hookUpdateFluctuation base2 tol2 cs r1 r2 - base2|
        = |(r1 - 0.5) * 2 * (|base2| * (getEffectiveTolerance tol2 cs / 100)) +
            (r2 - 0.5) * jsOrQ (some (|base2| * 0.0001)) 0.0001| := by rw [hdiff]
      _ ≤ |(r1 - 0.5) * 2 * (|base2| * (getEffectiveTolerance tol2 cs / 100))| +
            |(r2 - 0.5) * jsOrQ (some (|base2| * 0.0001)) 0.0001| := abs_add _ _
      _ ≤ |base2| * (getEffectiveTolerance tol2 cs / 100) +
            jsOrQ (some (|base2| * 0.0001)) 0.0001 / 2 := add_le_add hA hB
  · intro tol2
    constructor <;> simp [getEffectiveTolerance, mul_comm]
  · intro r1 r2 h10 h11 h20 h21
    have he : getEffectiveTolerance 1 none = 1 := rfl
    have hval : hookUpdateFluctuation 100 1 none r1 r2 =
        100 + ((r1 - 0.5) * 2 * 1 + (r2 - 0.5) * (1 / 100)) := by
      norm_num [hookUpdateFluctuation, he, jsOrQ]
    rw [hval]
    constructor <;> nlinarith

/-- Predicate for action sequences built only from `addComponent` and
`removeComponent` dispatches. -/
def isAddOrRemove : Action → Prop
  | .addComponent _ _ _ _ => True
  | .removeComponent _ => True
  | _ => False

/-- The ids `ADD_COMPONENT` assigns along a dispatch sequence, in order. -/
def assignedIds : SimState → List Action → List Nat
  | _, [] => []
  | s, a :: rest =>
    let ids := assignedIds (simulatorReducer s a) rest
    match a with
    | .addComponent _ _ _ _ => s.componentIdCounter :: ids
    | _ => ids

/-- Helper: every id assigned along an add/remove sequence is at least the
current counter. -/
theorem assignedIds_ge (acts : List Action) : ∀ s : SimState,
    (∀ a ∈ acts, isAddOrRemove a) →
    ∀ i ∈ assignedIds s acts, s.componentIdCounter ≤ i := by
  induction acts with
  | nil =>
    intro s _ i hi
    simp [assignedIds] at hi
  | cons a rest ih =>
    intro s hall i hi
    have hrest : ∀ b ∈ rest, isAddOrRemove b := fun b hb => hall b (List.mem_cons_of_mem a hb)
    have ha := hall a (List.mem_cons_self a rest)
    cases a
    case addComponent dtype x y r =>
      rw [assignedIds] at hi
      rcases List.mem_cons.mp hi with h1 | h1
      · omega
      · have hge := ih (simulatorReducer s (.addComponent dtype x y r)) hrest i h1
        have hc : (simulatorReducer s (.addComponent dtype x y r)).componentIdCounter =
            s.componentIdCounter + 1 := rfl
        omega
    case removeComponent id =>
      rw [assignedIds] at hi
      have hge := ih (simulatorReducer s (.removeComponent id)) hrest i hi
      have hc : (simulatorReducer s (.removeComponent id)).componentIdCounter =
          s.componentIdCounter := rfl
      omega
      intro dtype x y rand hcontra
      exact Action.noConfusion hcontra
    all_goals simp [isAddOrRemove] at ha

/-- Counterexample for C5 as stated: the shared hook sampler
(`useUncertaintyMode.js`, used by AnalogMultimeter/ClampMeter/U3606A)
publishes `101.00299` for base 100 at tolerance 1 % with random draws
0.999/0.999 — the claimed bound `|offset| ≤ |base| * (tolerance / 100)`
fails and the sample leaves `[99, 101]`. -/
theorem c5_fluctuation_counterexample :
    hookUpdateFluctuation 100 1 none 0.999 0.999 = 101.00299 ∧
    ¬ |hookUpdateFluctuation 100 1 none 0.999 0.999 - 100| ≤ |(100 : ℚ)| * (1 / 100) ∧
    ¬ hookUpdateFluctuation 100 1 none 0.999 0.999 ≤ 101 := by
  have he : getEffectiveTolerance 1 none = 1 := rfl
  norm_num [hookUpdateFluctuation, he, jsOrQ]
  have habs : |(100299 : ℚ) / 100000| = 100299 / 100000 := abs_of_pos (by norm_num)
  rw [habs]
  norm_num

/-- Helper: every member of a list of naturals is bounded by the
`foldr max 0` of the list. -/
theorem le_foldr_max (l : List Nat) : ∀ x ∈ l, x ≤ l.foldr max 0 := by
  induction l with
  | nil => simp
  | cons a t ih =>
    intro x hx
    rcases List.mem_cons.mp hx with h | h
    · subst h
      exact le_max_left _ _
    · exact le_trans (ih x h) (le_max_right _ _)

/-- Helper: assigned ids are pairwise strictly increasing along any
add/remove dispatch sequence. -/
theorem assignedIds_pairwise (acts : List Action) : ∀ s : SimState,
    (∀ a ∈ acts, isAddOrRemove a) → (assignedIds s acts).Pairwise (· < ·) := by
  induction acts with
  | nil =>
    intro s _
    simp [assignedIds]
  | cons a rest ih =>
    intro s hall
    have hrest : ∀ b ∈ rest, isAddOrRemove b := fun b hb => hall b (List.mem_cons_of_mem a hb)
    have ha := hall a (List.mem_cons_self a rest)
    cases a
    case addComponent dtype x y r =>
      rw [assignedIds]
      refine List.Pairwise.cons ?_ (ih _ hrest)
      intro j hj
      have hge := assignedIds_ge rest _ hrest j hj
      have hc : (simulatorReducer s (.addComponent dtype x y r)).componentIdCounter =
          s.componentIdCounter + 1 := rfl
      omega
    case removeComponent id =>
      rw [assignedIds]
      · exact ih _ hrest
      · intro dtype x y rand hcontra
        exact Action.noConfusion hcontra
    all_goals simp [isAddOrRemove] at ha

/-- C4 (corrected): ids assigned by `addComponent` along any
add/remove dispatch sequence are strictly increasing and never repeat, and
`loadProject` recomputes the counter as `max(loaded ids ∪ {0}) + 1` — so the
next assigned id is `max(loaded ids) + 1` for a nonempty load but `1` (not
`0`) for an empty one — which keeps the next id above every loaded id. -/
theorem c4_id_assignment (s : SimState) :
    (∀ acts : List Action, (∀ a ∈ acts, isAddOrRemove a) →
      (assignedIds s acts).Pairwise (· < ·)) ∧
    (∀ (comps : List Component) (conns : List Connection),
      (simulatorReducer s (.loadProject comps conns)).componentIdCounter =
        (comps.map (fun c => c.id)).foldr max 0 + 1) ∧
    (∀ (comps : List Component) (conns : List Connection) (c : Component), c ∈ comps →
      c.id < (simulatorReducer s (.loadProject comps conns)).componentIdCounter) := by
  refine ⟨fun acts h => assignedIds_pairwise acts s h, fun comps conns => rfl, ?_⟩
  intro comps conns c hc
  have hle : c.id ≤ (comps.map (fun c => c.id)).foldr max 0 :=
    le_foldr_max _ c.id (List.mem_map_of_mem _ hc)
  have hcounter : (simulatorReducer s (.loadProject comps conns)).componentIdCounter =
      (comps.map (fun c => c.id)).foldr max 0 + 1 := rfl
  omega

/-- Counterexample for C4 as stated: after `loadSnapshot` of an empty
component list the next assigned id is `1`, not `0` (the code computes
`Math.max(...[], 0) + 1 = 1`). -/
theorem c4_counterexample :
    (simulatorReducer (simulatorReducer initialState (.loadProject [] []))
        (.addComponent "multimeter" 0 0 0)).components.map (fun c => c.id) = [1] ∧
    (simulatorReducer (simulatorReducer initialState (.loadProject [] []))
        (.addComponent "multimeter" 0 0 0)).components.map (fun c => c.id) ≠ [0] := by
  have h1 : (simulatorReducer (simulatorReducer initialState (.loadProject [] []))
      (.addComponent "multimeter" 0 0 0)).components.map (fun c => c.id) = [1] := rfl
  refine ⟨h1, ?_⟩
  rw [h1]
  decide

/-! ### Witness scenarios -/

/-- Helper: 1000 is non-zero in ℚ. -/
theorem thousand_ne_zero : (1000 : ℚ) ≠ 0 := by norm_num

/-- A Fluke 5500A programmed to 1 A DC current, output on. -/
def currCal : Component :=
  { id := 0, type := "fluke5500a",
    state := { getInitialState "fluke5500a" with output := true, mode := "DC Current", value := 1, unit := "A" } }

/-- A Fluke 5500A in AC Voltage mode (programmed frequency 1000 Hz), output on. -/
def acCal : Component :=
  { id := 0, type := "fluke5500a",
    state := { getInitialState "fluke5500a" with output := true, mode := "AC Voltage", value := 5 } }

/-- AUX_HI wire calibrator→meter. -/
def auxHiStd : Connection :=
  { fromId := 0, toId := 1, polarity := "aux_hi", wireProperties := standardWire }

/-- AUX_LO wire calibrator→meter. -/
def auxLoStd : Connection :=
  { fromId := 0, toId := 1, polarity := "aux_lo", wireProperties := standardWire }

/-- A meter state dialed to Hz. -/
def hzMeterState : DeviceState :=
  { power := true, mode := "Hz", value := 0, unit := "V" }

/-- The value object the AUX current scenario resolves to. -/
def c2cv : ConnectedValue :=
  { value := 1, unit := "A", mode := some "DC Current", mappedMode := some "DC A",
    frequency := some 1000, active := true, wireResistance := some 0 }

/-- A store holding a calibrator (id 0) and a multimeter (id 1), no wires. -/
def demoStore : SimState :=
  { initialState with components := [volt10Cal, demoMeter] }

/-- A store with one standard HI wire between calibrator and meter. -/
def wireStore : SimState :=
  { initialState with components := [volt10Cal, demoMeter], connections := [hiStd] }

/-- A store with global uncertainty mode enabled. -/
def uncertaintyStore : SimState :=
  { initialState with uncertaintyMode := true }

/-- A demo dispatch sequence: add, remove, add. -/
def demoActs : List Action :=
  [.addComponent "multimeter" 0 0 0, .removeComponent 0, .addComponent "fluke5500a" 0 0 0]

/-- Witness for C2: an AUX-pair current circuit resolves with the aux flag
and displays amps. -/
theorem c2_resolution_characterization_witness :
    resolveCircuit [currCal, demoMeter] [auxHiStd, auxLoStd] 1 = some (currCal, true) ∧
    getConnectedValue [currCal, demoMeter] [auxHiStd, auxLoStd] 1 false = some c2cv ∧
    c2cv.unit = "A" :=
  ⟨rfl, rfl,
    (c2_resolution_characterization [currCal, demoMeter] [auxHiStd, auxLoStd] 1).2
      false currCal c2cv rfl (Or.inl rfl) rfl⟩

/-- Witness for C3: a fresh calibrator→uuc HI wire is accepted and appended. -/
theorem c3_validator_rules_witness :
    (addConnectionChecked demoStore 0 1 "hi").1.connections =
      demoStore.connections ++
        [{ fromId := 0, toId := 1, polarity := jsOrStr "hi" "hi",
           wireProperties := { type := "standard", resistance := 0.05 } }] :=
  (c3_validator_rules demoStore 0 1 "hi").2.2.2.2.2.2 rfl

/-- Witness for C4: the assigned ids of an add/remove/add sequence are
strictly increasing. -/
theorem c4_id_assignment_witness :
    (assignedIds initialState demoActs).Pairwise (· < ·) :=
  (c4_id_assignment initialState).1 demoActs (by
    intro a ha
    fin_cases ha <;> trivial)

/-- Witness for C5: the sample at `r = 1` obeys the tolerance bound. -/
theorem c5_fluctuation_bounds_witness :
    |updateFluctuation 100 (getTolerance fluke117Tolerance 0.5 acvMeterState none) 1 - 100| ≤
      |(100 : ℚ)| * (getTolerance fluke117Tolerance 0.5 acvMeterState none / 100) :=
  (c5_fluctuation_bounds fluke117Tolerance 0.5 acvMeterState none 100 1
    zero_le_one (le_refl 1) getTolerance_acv_nonneg).2.1

/-- Witness for C7: an AC Voltage source at 1000 Hz read in Hz mode displays
1000. -/
theorem c7_hz_mode_displays_frequency_witness :
    multimeterBaseValue hzMeterState (getConnectedValue [acCal, demoMeter] [hiStd, loStd] 1 false) =
      1000 :=
  (c7_hz_mode_displays_frequency [acCal, demoMeter] [hiStd, loStd] 1 hzMeterState false acCal false
    rfl (Or.inl rfl) rfl rfl).1 (Or.inl rfl) 1000 rfl thousand_ne_zero

/-- Witness for C8: a uuc added under uncertainty mode gets a drawn status. -/
theorem c8_compliance_tagging_witness :
    complianceStatusAt 0 ∈ COMPLIANCE_STATUSES ∧
    (simulatorReducer uncertaintyStore (.addComponent "multimeter" 0 0 0)).components =
      uncertaintyStore.components ++
        [newComponent uncertaintyStore.componentIdCounter "multimeter" 0 0
          (some (complianceStatusAt 0))] :=
  (c8_compliance_tagging uncertaintyStore).1 "multimeter" 0 0 0 rfl rfl

/-- Witness for C9: toggling the standard HI wire at index 0 flips it to a
bad 5.0 Ω wire in place. -/
theorem c9_toggle_wire_frame_witness :
    (simulatorReducer wireStore (.toggleConnectionWireType 0)).connections.get? 0 =
      some { hiStd with wireProperties :=
        if hiStd.wireProperties.type = "standard" then
          { type := "bad", resistance := 5.0 }
        else
          { type := "standard", resistance := 0.05 } } :=
  (c9_toggle_wire_frame wireStore 0).2.2.2.2.2 hiStd rfl

end CalSim
